import Mathlib

/-!
Verification of the paradox_token custody / vesting / treasury program
(`programs/paradox_token/src`).  The Rust state structs and their methods are
shallowly embedded: unsigned machine integers become `Nat` with explicit
`% 2 ^ 64` where a Rust cast truncates, `i64` timestamps become `Int`,
`saturating_*` and `checked_*` operations are modelled explicitly, fallible
handlers return `Except ParadoxError`.  A handler that returns an error
commits nothing on Solana (the transaction is reverted), so the committed
state of a failed operation is the input state; `applyLpOp` and the
`*Commit` helpers encode exactly that.
-/

namespace Paradox

/-- Modulus of the `u64` type. -/
def U64_MOD : Nat := 2 ^ 64

/-- Modulus of the `u128` type. -/
def U128_MOD : Nat := 2 ^ 128

/-- Rust `as u64` truncating cast from a wider unsigned value. -/
def castU64 (x : Nat) : Nat := x % U64_MOD

/-- Rust `u64::saturating_add`. -/
def satAdd64 (a b : Nat) : Nat := min (a + b) (U64_MOD - 1)

/-- Rust `u64::saturating_mul`. -/
def satMul64 (a b : Nat) : Nat := min (a * b) (U64_MOD - 1)

/-- Rust `u128::saturating_mul`. -/
def satMul128 (a b : Nat) : Nat := min (a * b) (U128_MOD - 1)

/-- Rust `u64::checked_sub` (also `u128::checked_sub`): `None` on underflow. -/
def checkedSub (a b : Nat) : Option Nat := if b ≤ a then some (a - b) else none

/-- Rust `i64::checked_add`: `None` when the mathematical sum leaves i64. -/
def checkedAddI64 (a b : Int) : Option Int :=
  if -(2 ^ 63) ≤ a + b ∧ a + b < 2 ^ 63 then some (a + b) else none

/-- Error codes of `ParadoxError` (lib.rs) restricted to the variants the
embedded operations can produce. -/
inductive ParadoxError
  | InvalidTransferFee
  | InvalidFeeShares
  | CliffNotPassed
  | CooldownNotPassed
  | TimelockNotExpired
  | UnlockRateExceeded
  | InsufficientFees
  | Unauthorized
  | DaoSpendingLimitExceeded
  | MathOverflow
  | InsufficientLpTokens
  | TooManyPendingWithdrawals
  | InvalidWithdrawalSlot
  | NoActiveWithdrawal
  | AlreadyFinalized
  | AmountBelowMinimum
  deriving DecidableEq, Repr

/-- `MIN_TRANSFER_AMOUNT` (lib.rs line 54): dust floor for transfers. -/
def MIN_TRANSFER_AMOUNT : Nat := 34

-- =============================================================================
-- TokenConfig (state/token_config.rs)
-- =============================================================================

/-- The fee-relevant fields of the `TokenConfig` account. -/
structure TokenConfig where
  transfer_fee_bps : Nat
  lp_share_bps : Nat
  burn_share_bps : Nat
  treasury_share_bps : Nat
  deriving DecidableEq, Repr

/-- `TokenConfig::validate_shares`: the three shares sum to 10000 bps. -/
def TokenConfig.validate_shares (c : TokenConfig) : Bool :=
  c.lp_share_bps + c.burn_share_bps + c.treasury_share_bps == 10000

/-- `TokenConfig::calculate_distribution` (state/token_config.rs lines
101-122).  `to_lp` and `to_burn` are `u128` multiply-then-divide results cast
to `u64`; `to_treasury` is the checked remainder.  The `checked_div(10_000)`
calls cannot fail (constant nonzero divisor) and are modelled as plain
division; the `checked_mul` overflow tests are kept. -/
def TokenConfig.calculate_distribution (c : TokenConfig) (fee_amount : Nat) :
    Except ParadoxError (Nat × Nat × Nat) :=
  if U128_MOD ≤ fee_amount * c.lp_share_bps then .error .MathOverflow
  else if U128_MOD ≤ fee_amount * c.burn_share_bps then .error .MathOverflow
  else
    match checkedSub fee_amount (castU64 (fee_amount * c.lp_share_bps / 10000)) with
    | none => .error .MathOverflow
    | some v =>
      match checkedSub v (castU64 (fee_amount * c.burn_share_bps / 10000)) with
      | none => .error .MathOverflow
      | some to_treasury =>
        .ok (castU64 (fee_amount * c.lp_share_bps / 10000),
             castU64 (fee_amount * c.burn_share_bps / 10000),
             to_treasury)

-- basic arithmetic lemmas about the bps split

/-- Each of the two rounded shares is at most the fee when its bps is at
most 10000. -/
theorem share_le_fee (fee s : Nat) (hs : s ≤ 10000) : fee * s / 10000 ≤ fee := by
  calc fee * s / 10000 ≤ fee * 10000 / 10000 :=
        Nat.div_le_div_right (Nat.mul_le_mul_left fee hs)
    _ = fee := Nat.mul_div_cancel fee (by norm_num)

/-- The two rounded shares together never exceed the fee when their bps sum
to at most 10000. -/
theorem shares_sum_le_fee (fee a b : Nat) (hab : a + b ≤ 10000) :
    fee * a / 10000 + fee * b / 10000 ≤ fee := by
  have h1 : fee * a / 10000 + fee * b / 10000 ≤ (fee * a + fee * b) / 10000 := by
    rw [Nat.le_div_iff_mul_le (by norm_num : 0 < 10000), Nat.add_mul]
    exact Nat.add_le_add (Nat.div_mul_le_self _ _) (Nat.div_mul_le_self _ _)
  have h2 : (fee * a + fee * b) / 10000 ≤ fee := by
    rw [← Nat.mul_add]
    exact share_le_fee fee (a + b) hab
  exact le_trans h1 h2

/-- C1: for every u64 `fee_amount` and every share configuration whose three
shares sum to exactly 10000 bps, `calculate_distribution` succeeds and
returns `(to_lp, to_burn, to_treasury)` with
`to_lp + to_burn + to_treasury = fee_amount` and `to_treasury` the exact
remainder `fee_amount - to_lp - to_burn`. -/
theorem calculate_distribution_sum (c : TokenConfig) (fee : Nat)
    (hfee : fee < U64_MOD)
    (hsum : c.lp_share_bps + c.burn_share_bps + c.treasury_share_bps = 10000) :
    ∃ to_lp to_burn to_treasury,
      c.calculate_distribution fee = .ok (to_lp, to_burn, to_treasury) ∧
      to_lp + to_burn + to_treasury = fee ∧
      to_treasury = fee - to_lp - to_burn := by
  have hlp : c.lp_share_bps ≤ 10000 := by omega
  have hburn : c.burn_share_bps ≤ 10000 := by omega
  have hlpfee : fee * c.lp_share_bps / 10000 ≤ fee := share_le_fee fee _ hlp
  have hburnfee : fee * c.burn_share_bps / 10000 ≤ fee := share_le_fee fee _ hburn
  have hboth : fee * c.lp_share_bps / 10000 + fee * c.burn_share_bps / 10000 ≤ fee :=
    shares_sum_le_fee fee _ _ (by omega)
  have hc1 : castU64 (fee * c.lp_share_bps / 10000) = fee * c.lp_share_bps / 10000 :=
    Nat.mod_eq_of_lt (lt_of_le_of_lt hlpfee hfee)
  have hc2 : castU64 (fee * c.burn_share_bps / 10000) = fee * c.burn_share_bps / 10000 :=
    Nat.mod_eq_of_lt (lt_of_le_of_lt hburnfee hfee)
  have hov1 : ¬ U128_MOD ≤ fee * c.lp_share_bps := by
    have : fee * c.lp_share_bps ≤ (U64_MOD - 1) * 10000 :=
      Nat.mul_le_mul (by omega) hlp
    simp only [U64_MOD] at this
    simp only [U128_MOD]
    omega
  have hov2 : ¬ U128_MOD ≤ fee * c.burn_share_bps := by
    have : fee * c.burn_share_bps ≤ (U64_MOD - 1) * 10000 :=
      Nat.mul_le_mul (by omega) hburn
    simp only [U64_MOD] at this
    simp only [U128_MOD]
    omega
  refine ⟨fee * c.lp_share_bps / 10000, fee * c.burn_share_bps / 10000,
    fee - fee * c.lp_share_bps / 10000 - fee * c.burn_share_bps / 10000, ?_, by omega, by omega⟩
  simp only [TokenConfig.calculate_distribution, hov1, hov2, if_false, hc1, hc2,
    checkedSub, if_pos hlpfee, if_pos (show fee * c.burn_share_bps / 10000 ≤
      fee - fee * c.lp_share_bps / 10000 by omega)]

/-- Witness for C1 at the default share configuration 7000/1500/1500 and a
concrete fee amount. -/
theorem calculate_distribution_sum_witness :
    ∃ to_lp to_burn to_treasury,
      (TokenConfig.mk 300 7000 1500 1500).calculate_distribution 1000003 =
        .ok (to_lp, to_burn, to_treasury) ∧
      to_lp + to_burn + to_treasury = 1000003 ∧
      to_treasury = 1000003 - to_lp - to_burn :=
  calculate_distribution_sum (TokenConfig.mk 300 7000 1500 1500) 1000003
    (by norm_num [U64_MOD]) (by norm_num)

-- =============================================================================
-- DevVestingVault (state/vesting.rs, instructions/vesting.rs)
-- =============================================================================

/-- The `DevVestingVault` account (pubkey fields and the PDA bump, which no
embedded method reads, are omitted). -/
structure DevVestingVault where
  total_allocation : Nat
  liquid_at_tge : Nat
  total_locked : Nat
  locked_amount : Nat
  pending_amount : Nat
  initialized_at : Int
  cliff_seconds : Int
  vesting_seconds : Int
  last_request_time : Int
  unlock_time : Int
  cooldown_seconds : Int
  timelock_seconds : Int
  unlock_rate_bps : Nat
  total_unlocked : Nat
  deriving DecidableEq, Repr

/-- `DevVestingVault::cliff_passed`. -/
def DevVestingVault.cliff_passed (v : DevVestingVault) (current_time : Int) : Bool :=
  decide (v.initialized_at + v.cliff_seconds ≤ current_time)

/-- `DevVestingVault::cooldown_passed`. -/
def DevVestingVault.cooldown_passed (v : DevVestingVault) (current_time : Int) : Bool :=
  decide (v.last_request_time + v.cooldown_seconds ≤ current_time)

/-- `DevVestingVault::timelock_expired`. -/
def DevVestingVault.timelock_expired (v : DevVestingVault) (current_time : Int) : Bool :=
  decide (v.unlock_time ≤ current_time)

/-- `DevVestingVault::max_unlockable`: `locked_amount.saturating_mul(rate) / 10000`. -/
def DevVestingVault.max_unlockable (v : DevVestingVault) : Nat :=
  satMul64 v.locked_amount v.unlock_rate_bps / 10000

/-- `DevVestingVault::update_unlock_rate` (state/vesting.rs lines 147-157):
1000 bps at or after month 18 since TGE, 500 bps before.  Rust `i64`
division truncates toward zero, hence `Int.tdiv`. -/
def DevVestingVault.update_unlock_rate (v : DevVestingVault) (current_time : Int) :
    DevVestingVault :=
  { v with unlock_rate_bps :=
      if 18 ≤ Int.tdiv (current_time - v.initialized_at) (30 * 24 * 60 * 60)
      then 1000 else 500 }

/-- `request_unlock_handler` (instructions/vesting.rs lines 141-175), with the
clock passed explicitly.  Checks run in source order: dust floor, cliff,
cooldown, then the freshly updated rate cap. -/
def request_unlock_handler (v : DevVestingVault) (now : Int) (amount : Nat) :
    Except ParadoxError DevVestingVault :=
  if amount < MIN_TRANSFER_AMOUNT then .error .AmountBelowMinimum
  else if v.cliff_passed now = false then .error .CliffNotPassed
  else if v.cooldown_passed now = false then .error .CooldownNotPassed
  else
    let v1 := v.update_unlock_rate now
    if v1.max_unlockable < amount then .error .UnlockRateExceeded
    else
      match checkedAddI64 now v1.timelock_seconds with
      | none => .error .MathOverflow
      | some t =>
        .ok { v1 with
          pending_amount := amount, last_request_time := now, unlock_time := t }

/-- Committed account state of a fallible operation: Solana reverts the whole
transaction when a handler errors, so a failed operation commits the input
state. -/
def commitExcept {σ : Type} (s : σ) : Except ParadoxError σ → σ
  | .ok s2 => s2
  | .error _ => s

/-- Whether an embedded handler succeeded. -/
def isOkE {σ : Type} : Except ParadoxError σ → Bool
  | .ok _ => true
  | .error _ => false

/-- C7: `update_unlock_rate` sets 500 bps while fewer than 18 thirty-day
months have elapsed since `initialized_at` and 1000 bps from month 18 on;
and `request_unlock` of an amount exceeding
`locked_amount * rate / 10000` (at the freshly updated rate) fails with
`UnlockRateExceeded` once the earlier dust/cliff/cooldown guards pass. -/
theorem vesting_rate_escalation (v : DevVestingVault) (now : Int) (amount : Nat) :
    ((v.update_unlock_rate now).unlock_rate_bps =
      if 18 ≤ Int.tdiv (now - v.initialized_at) (30 * 24 * 60 * 60)
      then 1000 else 500) ∧
    (MIN_TRANSFER_AMOUNT ≤ amount →
      v.cliff_passed now = true →
      v.cooldown_passed now = true →
      v.locked_amount * (v.update_unlock_rate now).unlock_rate_bps / 10000 < amount →
      request_unlock_handler v now amount = .error .UnlockRateExceeded) ∧
    (v.locked_amount * (v.update_unlock_rate now).unlock_rate_bps / 10000 < amount →
      isOkE (request_unlock_handler v now amount) = false) := by
  have hle : (v.update_unlock_rate now).max_unlockable ≤
      v.locked_amount * (v.update_unlock_rate now).unlock_rate_bps / 10000 := by
    have hlocked : (v.update_unlock_rate now).locked_amount = v.locked_amount := rfl
    simp only [DevVestingVault.max_unlockable, satMul64, hlocked]
    exact Nat.div_le_div_right (Nat.min_le_left _ _)
  refine ⟨rfl, ?_, ?_⟩
  · intro hmin hcliff hcool hrate
    simp only [request_unlock_handler, hcliff, hcool]
    rw [if_neg (by omega), if_neg (by simp), if_neg (by simp),
      if_pos (lt_of_le_of_lt hle hrate)]
  · intro hrate
    have hlt : (v.update_unlock_rate now).max_unlockable < amount :=
      lt_of_le_of_lt hle hrate
    simp only [request_unlock_handler]
    rcases Nat.lt_or_ge amount MIN_TRANSFER_AMOUNT with h1 | h1
    · rw [if_pos h1]
      rfl
    · rw [if_neg (by omega)]
      by_cases h2 : v.cliff_passed now = false
      · rw [if_pos h2]
        rfl
      · rw [if_neg h2]
        by_cases h3 : v.cooldown_passed now = false
        · rw [if_pos h3]
          rfl
        · rw [if_neg h3, if_pos hlt]
          rfl

/-- A concrete vesting vault five months after TGE, used by the witnesses. -/
def sampleVault : DevVestingVault :=
  { total_allocation := 1000000, liquid_at_tge := 0, total_locked := 1000000,
    locked_amount := 1000000, pending_amount := 0, initialized_at := 0,
    cliff_seconds := 100, vesting_seconds := 1000, last_request_time := 0,
    unlock_time := 0, cooldown_seconds := 10, timelock_seconds := 20,
    unlock_rate_bps := 500, total_unlocked := 0 }

/-- Witness for C7: the sample vault rejects an over-rate request. -/
theorem vesting_rate_escalation_witness :
    request_unlock_handler sampleVault 200 60000 = .error .UnlockRateExceeded :=
  (vesting_rate_escalation sampleVault 200 60000).2.1 (by decide) (by decide)
    (by decide) (by decide)

-- =============================================================================
-- DaoTreasuryVault (state/treasury.rs, instructions/treasury.rs)
-- =============================================================================

/-- The `DaoTreasuryVault` account (pubkeys modelled as `Nat`, reason buffer
as a byte list). -/
structure DaoTreasuryVault where
  balance : Nat
  max_spend_bps_per_period : Nat
  period_seconds : Int
  period_start : Int
  spent_this_period : Nat
  pending_amount : Nat
  pending_recipient : Nat
  pending_reason : List Nat
  pending_execute_after : Int
  timelock_seconds : Int
  total_withdrawn : Nat
  deriving DecidableEq, Repr

/-- `DaoTreasuryVault::max_spendable` (state/treasury.rs lines 85-92):
`u128` saturating multiply, divide by 10000 (a constant nonzero divisor, so
the `checked_div(…).unwrap_or(0)` branch is dead), cast to `u64`, then
saturating subtraction of the period spend. -/
def DaoTreasuryVault.max_spendable (t : DaoTreasuryVault) : Nat :=
  castU64 (satMul128 t.balance t.max_spend_bps_per_period / 10000)
    - t.spent_this_period

/-- `DaoTreasuryVault::should_reset_period`. -/
def DaoTreasuryVault.should_reset_period (t : DaoTreasuryVault)
    (current_time : Int) : Bool :=
  decide (t.period_start + t.period_seconds ≤ current_time)

/-- `DaoTreasuryVault::reset_period`. -/
def DaoTreasuryVault.reset_period (t : DaoTreasuryVault) (current_time : Int) :
    DaoTreasuryVault :=
  { t with period_start := current_time, spent_this_period := 0 }

/-- `DaoTreasuryVault::can_execute_withdrawal`. -/
def DaoTreasuryVault.can_execute_withdrawal (t : DaoTreasuryVault)
    (current_time : Int) : Bool :=
  decide (0 < t.pending_amount) && decide (t.pending_execute_after ≤ current_time)

/-- The conditional period reset of `propose_handler` (instructions/treasury.rs
lines 116-118). -/
def DaoTreasuryVault.resetIfElapsed (t : DaoTreasuryVault) (now : Int) :
    DaoTreasuryVault :=
  if t.should_reset_period now then t.reset_period now else t

/-- Fixed-capacity copy of the proposal reason into the 128-byte buffer
(`copy_from_slice` after truncation). -/
def copyReason (reason buf : List Nat) : List Nat :=
  reason.take 128 ++ buf.drop (min reason.length 128)

/-- `propose_handler` (instructions/treasury.rs lines 103-145) in source
order: dust floor first, then the conditional period reset, then the
spending-limit check against `max_spendable`, then the pending fields are
written with `execute_after = now + timelock` via `i64::checked_add`. -/
def propose_handler (t : DaoTreasuryVault) (now : Int) (amount : Nat)
    (recipient : Nat) (reason : List Nat) : Except ParadoxError DaoTreasuryVault :=
  if amount < MIN_TRANSFER_AMOUNT then .error .AmountBelowMinimum
  else
    let t1 := t.resetIfElapsed now
    if t1.max_spendable < amount then .error .DaoSpendingLimitExceeded
    else
      match checkedAddI64 now t1.timelock_seconds with
      | none => .error .MathOverflow
      | some ea =>
        .ok { t1 with
          pending_amount := amount, pending_recipient := recipient,
          pending_reason := copyReason reason t1.pending_reason,
          pending_execute_after := ea }

/-- Follows the spec's wording of `propose` for the refinement comparison:
the period reset happens before any validation, then the dust floor, then
the spending limit. -/
def propose_spec_order (t : DaoTreasuryVault) (now : Int) (amount : Nat)
    (recipient : Nat) (reason : List Nat) : Except ParadoxError DaoTreasuryVault :=
  let t1 := t.resetIfElapsed now
  if amount < MIN_TRANSFER_AMOUNT then .error .AmountBelowMinimum
  else if t1.max_spendable < amount then .error .DaoSpendingLimitExceeded
  else
    match checkedAddI64 now t1.timelock_seconds with
    | none => .error .MathOverflow
    | some ea =>
      .ok { t1 with
        pending_amount := amount, pending_recipient := recipient,
        pending_reason := copyReason reason t1.pending_reason,
        pending_execute_after := ea }

/-- The code's `max_spendable` never exceeds the exact bps bound
`balance * bps / 10000 - spent`. -/
theorem max_spendable_le_exact (t : DaoTreasuryVault) :
    t.max_spendable ≤ t.balance * t.max_spend_bps_per_period / 10000
      - t.spent_this_period := by
  apply Nat.sub_le_sub_right
  calc castU64 (satMul128 t.balance t.max_spend_bps_per_period / 10000)
      ≤ satMul128 t.balance t.max_spend_bps_per_period / 10000 := Nat.mod_le _ _
    _ ≤ t.balance * t.max_spend_bps_per_period / 10000 :=
        Nat.div_le_div_right (Nat.min_le_left _ _)

/-- C8: `propose` behaves exactly as the spec orders it (reset the elapsed
period before validating), rejects amounts under the dust floor with
`AmountBelowMinimum`, and rejects amounts over
`balance * max_spend_bps_per_period / 10000 - spent_this_period` (evaluated
on the period-reset state) with `DaoSpendingLimitExceeded`. -/
theorem treasury_propose_period_and_limits (t : DaoTreasuryVault) (now : Int)
    (amount recipient : Nat) (reason : List Nat) :
    propose_handler t now amount recipient reason
      = propose_spec_order t now amount recipient reason ∧
    (amount < MIN_TRANSFER_AMOUNT →
      propose_handler t now amount recipient reason = .error .AmountBelowMinimum) ∧
    (MIN_TRANSFER_AMOUNT ≤ amount →
      (t.resetIfElapsed now).balance * t.max_spend_bps_per_period / 10000
          - (t.resetIfElapsed now).spent_this_period < amount →
      propose_handler t now amount recipient reason
        = .error .DaoSpendingLimitExceeded) := by
  refine ⟨by simp only [propose_handler, propose_spec_order], ?_, ?_⟩
  · intro h
    simp only [propose_handler, if_pos h]
  · intro hmin hbound
    have hbps : (t.resetIfElapsed now).max_spend_bps_per_period
        = t.max_spend_bps_per_period := by
      simp only [DaoTreasuryVault.resetIfElapsed, DaoTreasuryVault.reset_period]
      split <;> rfl
    have hle := max_spendable_le_exact (t.resetIfElapsed now)
    rw [hbps] at hle
    simp only [propose_handler, if_neg (by omega : ¬ amount < MIN_TRANSFER_AMOUNT)]
    rw [if_pos (lt_of_le_of_lt hle hbound)]

/-- A concrete treasury with a 10% periodic cap, used by the witnesses. -/
def sampleTreasury : DaoTreasuryVault :=
  { balance := 1000000, max_spend_bps_per_period := 1000,
    period_seconds := 2592000, period_start := 0, spent_this_period := 0,
    pending_amount := 0, pending_recipient := 0, pending_reason := [],
    pending_execute_after := 0, timelock_seconds := 172800, total_withdrawn := 0 }

/-- Witness for C8: proposing 150000 against a 100000 cap is rejected. -/
theorem treasury_propose_period_and_limits_witness :
    propose_handler sampleTreasury 5 150000 7 [] = .error .DaoSpendingLimitExceeded :=
  (treasury_propose_period_and_limits sampleTreasury 5 150000 7 []).2.2
    (by decide) (by decide)

-- =============================================================================
-- LpLock (state/lp_lock.rs): progressive-timelock custody lock
-- =============================================================================

/-- Phase 1 length (state/lp_lock.rs line 26): 3 days. -/
def PHASE1_DURATION_SECONDS : Int := 3 * 24 * 60 * 60

/-- Phase 1 notice (line 27): 12 hours. -/
def PHASE1_TIMELOCK_SECONDS : Int := 12 * 60 * 60

/-- Phase 2 upper age bound (line 30): 15 days. -/
def PHASE2_DURATION_SECONDS : Int := 15 * 24 * 60 * 60

/-- Phase 2 notice (line 31): 15 days. -/
def PHASE2_TIMELOCK_SECONDS : Int := 15 * 24 * 60 * 60

/-- Phase 3 notice (line 34): 30 days. -/
def PHASE3_TIMELOCK_SECONDS : Int := 30 * 24 * 60 * 60

/-- `LpLockPhase`. -/
inductive LpLockPhase
  | Emergency
  | Stabilization
  | Permanent
  deriving DecidableEq, Repr

/-- `LpLockStatus`. -/
inductive LpLockStatus
  | NotInitialized
  | Active
  | WithdrawalPending
  | Withdrawn
  | Restored
  deriving DecidableEq, Repr

/-- One `LpSnapshot` ring entry. -/
structure LpSnapshot where
  id : Nat
  timestamp : Int
  reason : List Nat
  lp_tokens : Nat
  sol_reserve : Nat
  token_reserve : Nat
  total_supply : Nat
  holder_count : Nat
  is_valid : Bool
  was_restored : Bool
  deriving DecidableEq, Repr

/-- `LpSnapshot::default()`. -/
def LpSnapshot.empty : LpSnapshot :=
  ⟨0, 0, List.replicate 32 0, 0, 0, 0, 0, 0, false, false⟩

/-- One `PendingWithdrawal` slot. -/
structure PendingWithdrawal where
  amount : Nat
  recipient : Nat
  announced_at : Int
  execute_after : Int
  reason : List Nat
  snapshot_id : Nat
  is_active : Bool
  deriving DecidableEq, Repr

/-- `PendingWithdrawal::default()`. -/
def PendingWithdrawal.empty : PendingWithdrawal :=
  ⟨0, 0, 0, 0, List.replicate 64 0, 0, false⟩

/-- The `LpLock` account (pubkey identifiers other than the admin are
omitted; the fixed arrays `[LpSnapshot; 5]` and `[PendingWithdrawal; 3]`
become functions from `Fin`).  `pending_count` is a `u8`. -/
structure LpLock where
  admin : Nat
  created_at : Int
  phase : LpLockPhase
  status : LpLockStatus
  lp_tokens_locked : Nat
  total_withdrawn : Nat
  initial_lp_tokens : Nat
  snapshot_counter : Nat
  snapshots : Fin 5 → LpSnapshot
  latest_restorable_snapshot : Nat
  pending_withdrawals : Fin 3 → PendingWithdrawal
  pending_count : Nat
  deriving DecidableEq

/-- `LpLock::get_current_phase` (lines 250-265) with the clock explicit (the
`Clock::get()` error fallback never fires on a live validator). -/
def LpLock.get_current_phase (l : LpLock) (now : Int) : LpLockPhase :=
  let age := now - l.created_at
  if age < PHASE1_DURATION_SECONDS then .Emergency
  else if age < PHASE2_DURATION_SECONDS then .Stabilization
  else .Permanent

/-- `LpLock::get_required_timelock` (lines 268-274). -/
def LpLock.get_required_timelock (l : LpLock) (now : Int) : Int :=
  match l.get_current_phase now with
  | .Emergency => PHASE1_TIMELOCK_SECONDS
  | .Stabilization => PHASE2_TIMELOCK_SECONDS
  | .Permanent => PHASE3_TIMELOCK_SECONDS

/-- `LpLock::initialize` (lines 306-344) restricted to the modelled fields. -/
def LpLock.mkInitial (admin : Nat) (now : Int) (lp_amount : Nat) : LpLock :=
  { admin, created_at := now, phase := .Emergency, status := .Active,
    lp_tokens_locked := lp_amount, total_withdrawn := 0,
    initial_lp_tokens := lp_amount, snapshot_counter := 0,
    snapshots := fun _ => LpSnapshot.empty, latest_restorable_snapshot := 0,
    pending_withdrawals := fun _ => PendingWithdrawal.empty, pending_count := 0 }

/-- `LpLock::take_snapshot` (lines 351-383): `u64` counter increment, ring
index `(id - 1) % 5`, returns the new snapshot id. -/
def LpLock.take_snapshot (l : LpLock) (now : Int) (reason : List Nat)
    (sol_reserve token_reserve total_supply holder_count : Nat) : LpLock × Nat :=
  let snapshot_id := (l.snapshot_counter + 1) % U64_MOD
  let idx : Fin 5 := ⟨(snapshot_id - 1) % 5, Nat.mod_lt _ (by norm_num)⟩
  ({ l with
      snapshot_counter := snapshot_id,
      snapshots := Function.update l.snapshots idx
        ⟨snapshot_id, now, reason, l.lp_tokens_locked, sol_reserve,
         token_reserve, total_supply, holder_count, true, false⟩,
      latest_restorable_snapshot := snapshot_id }, snapshot_id)

/-- `LpLock::get_snapshot` (lines 386-393): first ring entry with the id and
`is_valid`. -/
def LpLock.get_snapshot (l : LpLock) (id : Nat) : Option LpSnapshot :=
  (List.finRange 5).findSome? fun i =>
    if (l.snapshots i).id = id ∧ (l.snapshots i).is_valid = true
    then some (l.snapshots i) else none

/-- `LpLock::mark_snapshot_restored` (lines 396-402). -/
def LpLock.mark_snapshot_restored (l : LpLock) (id : Nat) : LpLock :=
  { l with snapshots := fun i =>
      if (l.snapshots i).id = id
      then { l.snapshots i with was_restored := true }
      else l.snapshots i }

/-- First free pending slot: `iter().position(|pw| !pw.is_active)`. -/
def LpLock.firstFreeSlot (l : LpLock) : Option (Fin 3) :=
  (List.finRange 3).find? fun i => ! (l.pending_withdrawals i).is_active

/-- `LpLock::announce_withdrawal` (lines 409-440): finds a free slot or fails
with `TooManyPendingWithdrawals`, records
`execute_after = now + get_required_timelock()`, bumps the `u8`
`pending_count` and sets the status to `WithdrawalPending`. -/
def LpLock.announce_withdrawal (l : LpLock) (now : Int) (amount recipient : Nat)
    (reason : List Nat) (snapshot_id : Nat) :
    Except ParadoxError (LpLock × Fin 3) :=
  match l.firstFreeSlot with
  | none => .error .TooManyPendingWithdrawals
  | some slot =>
    .ok ({ l with
        pending_withdrawals := Function.update l.pending_withdrawals slot
          ⟨amount, recipient, now, now + l.get_required_timelock now, reason,
           snapshot_id, true⟩,
        pending_count := (l.pending_count + 1) % 256,
        status := .WithdrawalPending }, slot)

/-- `LpLock::can_execute_withdrawal` (lines 443-457). -/
def LpLock.can_execute_withdrawal (l : LpLock) (now : Int) (slot : Nat) : Bool :=
  if h : slot < 3 then
    (l.pending_withdrawals ⟨slot, h⟩).is_active &&
      decide ((l.pending_withdrawals ⟨slot, h⟩).execute_after ≤ now)
  else false

/-- `LpLock::execute_withdrawal` (lines 477-504): guards in source order, then
saturating balance/counter updates, slot clear, `u8` count decrement and the
conditional status update. -/
def LpLock.execute_withdrawal (l : LpLock) (now : Int) (slot : Nat) :
    Except ParadoxError (LpLock × Nat × Nat) :=
  if h : slot < 3 then
    if (l.pending_withdrawals ⟨slot, h⟩).is_active = false then
      .error .NoActiveWithdrawal
    else if l.can_execute_withdrawal now slot = false then
      .error .TimelockNotExpired
    else
      let pw := l.pending_withdrawals ⟨slot, h⟩
      let l1 : LpLock := { l with
        lp_tokens_locked := l.lp_tokens_locked - pw.amount,
        total_withdrawn := satAdd64 l.total_withdrawn pw.amount,
        pending_withdrawals :=
          Function.update l.pending_withdrawals ⟨slot, h⟩ PendingWithdrawal.empty,
        pending_count := l.pending_count - 1 }
      if l1.pending_count = 0 then
        .ok ({ l1 with status :=
          if l1.lp_tokens_locked = 0 then .Withdrawn else .Active },
          pw.amount, pw.recipient)
      else .ok (l1, pw.amount, pw.recipient)
  else .error .InvalidWithdrawalSlot

/-- `LpLock::cancel_withdrawal` (lines 507-519). -/
def LpLock.cancel_withdrawal (l : LpLock) (slot : Nat) :
    Except ParadoxError LpLock :=
  if h : slot < 3 then
    if (l.pending_withdrawals ⟨slot, h⟩).is_active = false then
      .error .NoActiveWithdrawal
    else
      let l1 : LpLock := { l with
        pending_withdrawals :=
          Function.update l.pending_withdrawals ⟨slot, h⟩ PendingWithdrawal.empty,
        pending_count := l.pending_count - 1 }
      if l1.pending_count = 0 then .ok { l1 with status := .Active } else .ok l1
  else .error .InvalidWithdrawalSlot

/-- `LpLock::restore_from_snapshot` (lines 526-532): sets the locked amount
and the `Restored` status, then refreshes the cached phase.  The pending
slots are not touched. -/
def LpLock.restore_from_snapshot (l : LpLock) (now : Int) (lp_amount : Nat) :
    LpLock :=
  let l1 : LpLock := { l with lp_tokens_locked := lp_amount, status := .Restored }
  { l1 with phase := l1.get_current_phase now }

-- =============================================================================
-- LpLock instruction handlers (instructions/lp_lock.rs)
-- =============================================================================

/-- The reserved reason tag `PRE_WITHDRAWAL__` (16 ASCII bytes, zero-padded
to 32) the announce handler writes into its automatic snapshot. -/
def preWithdrawalReason : List Nat :=
  [80, 82, 69, 95, 87, 73, 84, 72, 68, 82, 65, 87, 65, 76, 95, 95]
    ++ List.replicate 16 0

/-- `announce_withdrawal_handler` (instructions/lp_lock.rs lines 190-214):
balance check, then the automatic `PRE_WITHDRAWAL__` snapshot (with zeroed
reserve figures), then `announce_withdrawal`.  Note the snapshot is taken
before the slot-capacity check inside `announce_withdrawal`; its mutation is
only committed when the whole instruction succeeds. -/
def announce_withdrawal_handler (l : LpLock) (now : Int)
    (amount recipient : Nat) (reason : List Nat) : Except ParadoxError LpLock :=
  if l.lp_tokens_locked < amount then .error .InsufficientLpTokens
  else
    let ts := l.take_snapshot now preWithdrawalReason 0 0 0 0
    match ts.1.announce_withdrawal now amount recipient reason ts.2 with
    | .error e => .error e
    | .ok (l2, _) => .ok l2

/-- `execute_withdrawal_handler` (instructions/lp_lock.rs lines 276-328):
`can_execute_withdrawal` guard (surfacing every failure as
`TimelockNotExpired`), then the state-level execute; the token transfer is
an external capability. -/
def execute_withdrawal_handler (l : LpLock) (now : Int) (slot : Nat) :
    Except ParadoxError LpLock :=
  if l.can_execute_withdrawal now slot = false then .error .TimelockNotExpired
  else
    match l.execute_withdrawal now slot with
    | .error e => .error e
    | .ok (l2, _, _) => .ok l2

/-- Outcome of a handler that can also abort with a Rust panic (a Solana
program abort, distinct from a typed `ParadoxError`). -/
inductive HandlerOutcome (α : Type)
  | ok (a : α)
  | err (e : ParadoxError)
  | panicked
  deriving DecidableEq

/-- `cancel_withdrawal_handler` (instructions/lp_lock.rs lines 351-375): the
handler reads `pending_withdrawals[slot as usize]` for its log/event before
any validation, so a slot index out of bounds (`slot >= 3`, possible since
the argument is a `u8`) aborts with an index-out-of-bounds panic instead of
reaching `cancel_withdrawal`'s `InvalidWithdrawalSlot` check. -/
def cancel_withdrawal_handler (l : LpLock) (slot : Nat) :
    HandlerOutcome LpLock :=
  if slot < 3 then
    match l.cancel_withdrawal slot with
    | .error e => .err e
    | .ok l2 => .ok l2
  else .panicked

/-- `restore_from_snapshot_handler` (instructions/lp_lock.rs lines 406-451):
snapshot lookup (`InvalidWithdrawalSlot` when absent), `AlreadyFinalized`
when already restored, then `restore_from_snapshot` followed by
`mark_snapshot_restored`. -/
def restore_from_snapshot_handler (l : LpLock) (now : Int)
    (snapshot_id lp_amount : Nat) : Except ParadoxError LpLock :=
  match l.get_snapshot snapshot_id with
  | none => .error .InvalidWithdrawalSlot
  | some s =>
    if s.was_restored = true then .error .AlreadyFinalized
    else .ok ((l.restore_from_snapshot now lp_amount).mark_snapshot_restored
      snapshot_id)

/-- The custody-lock operations a transaction can run against one lock. -/
inductive LpOp
  | announce (now : Int) (amount recipient : Nat) (reason : List Nat)
  | execute (now : Int) (slot : Nat)
  | cancel (slot : Nat)
  | snapshot (now : Int) (reason : List Nat)
      (sol_reserve token_reserve total_supply holder_count : Nat)
  | restore (now : Int) (snapshot_id lp_amount : Nat)

/-- Committed state of one operation: a failed (error or panicked)
instruction commits nothing on Solana, a successful one commits the
handler's final state. -/
def applyLpOp (l : LpLock) : LpOp → LpLock
  | .announce now amount recipient reason =>
    commitExcept l (announce_withdrawal_handler l now amount recipient reason)
  | .execute now slot => commitExcept l (execute_withdrawal_handler l now slot)
  | .cancel slot =>
    match cancel_withdrawal_handler l slot with
    | .ok l2 => l2
    | .err _ => l
    | .panicked => l
  | .snapshot now reason a b c d => (l.take_snapshot now reason a b c d).1
  | .restore now snapshot_id lp_amount =>
    commitExcept l (restore_from_snapshot_handler l now snapshot_id lp_amount)

-- =============================================================================
-- Free-slot scan lemmas
-- =============================================================================

/-- A slot the free-slot scan returns is inactive. -/
theorem firstFreeSlot_some (l : LpLock) (s : Fin 3)
    (h : l.firstFreeSlot = some s) :
    (l.pending_withdrawals s).is_active = false := by
  have := List.find?_some h
  simpa using this

/-- The free-slot scan fails exactly when all three slots are active. -/
theorem firstFreeSlot_eq_none_iff (l : LpLock) :
    l.firstFreeSlot = none ↔
      ∀ i : Fin 3, (l.pending_withdrawals i).is_active = true := by
  unfold LpLock.firstFreeSlot
  rw [List.find?_eq_none]
  constructor
  · intro h i
    have := h i (List.mem_finRange i)
    simpa using this
  · intro h i _
    simp [h i]

/-- C2: for an active pending request in a valid slot, `execute_withdrawal`
fails with `TimelockNotExpired` at every `now < execute_after` and succeeds,
returning the recorded amount and recipient, at every `now ≥ execute_after`. -/
theorem execute_withdrawal_timelock (l : LpLock) (now : Int) (slot : Nat)
    (h3 : slot < 3)
    (hact : (l.pending_withdrawals ⟨slot, h3⟩).is_active = true) :
    (now < (l.pending_withdrawals ⟨slot, h3⟩).execute_after →
      l.execute_withdrawal now slot = .error .TimelockNotExpired) ∧
    ((l.pending_withdrawals ⟨slot, h3⟩).execute_after ≤ now →
      ∃ l2, l.execute_withdrawal now slot =
        .ok (l2, (l.pending_withdrawals ⟨slot, h3⟩).amount,
          (l.pending_withdrawals ⟨slot, h3⟩).recipient)) := by
  constructor
  · intro hlt
    have hcan : l.can_execute_withdrawal now slot = false := by
      simp only [LpLock.can_execute_withdrawal, dif_pos h3, hact, Bool.true_and,
        decide_eq_false_iff_not]
      omega
    simp only [LpLock.execute_withdrawal, dif_pos h3]
    rw [if_neg (by simp [hact]), if_pos hcan]
  · intro hge
    have hcan : ¬ l.can_execute_withdrawal now slot = false := by
      simp only [LpLock.can_execute_withdrawal, dif_pos h3, hact, Bool.true_and,
        decide_eq_false_iff_not]
      omega
    simp only [LpLock.execute_withdrawal, dif_pos h3]
    rw [if_neg (by simp [hact]), if_neg hcan]
    split
    · exact ⟨_, rfl⟩
    · exact ⟨_, rfl⟩

/-- C4: with all three slots active, a 4th announcement fails with
`TooManyPendingWithdrawals`; after any successful cancel of one slot a new
announcement succeeds. -/
theorem announce_slot_capacity (l : LpLock) (now now2 : Int)
    (amount recipient a2 r2 : Nat) (reason reason2 : List Nat)
    (sid sid2 : Nat) (slot : Nat)
    (hall : ∀ i : Fin 3, (l.pending_withdrawals i).is_active = true) :
    l.announce_withdrawal now amount recipient reason sid
      = .error .TooManyPendingWithdrawals ∧
    (slot < 3 →
      ∃ l2, l.cancel_withdrawal slot = .ok l2 ∧
        ∃ l3 s, l2.announce_withdrawal now2 a2 r2 reason2 sid2 = .ok (l3, s)) := by
  constructor
  · have hnone : l.firstFreeSlot = none := (firstFreeSlot_eq_none_iff l).mpr hall
    simp only [LpLock.announce_withdrawal, hnone]
  · intro h3
    simp only [LpLock.cancel_withdrawal, dif_pos h3]
    rw [if_neg (by simp [hall ⟨slot, h3⟩])]
    have hfree : ∀ l2 : LpLock,
        l2.pending_withdrawals =
          Function.update l.pending_withdrawals ⟨slot, h3⟩ PendingWithdrawal.empty →
        ∃ l3 s, l2.announce_withdrawal now2 a2 r2 reason2 sid2 = .ok (l3, s) := by
      intro l2 hpw
      cases hf : l2.firstFreeSlot with
      | none =>
        have := (firstFreeSlot_eq_none_iff l2).mp hf ⟨slot, h3⟩
        rw [hpw, Function.update_same] at this
        simp [PendingWithdrawal.empty] at this
      | some s =>
        refine ⟨{ l2 with
            pending_withdrawals := Function.update l2.pending_withdrawals s
              ⟨a2, r2, now2, now2 + l2.get_required_timelock now2, reason2,
               sid2, true⟩,
            pending_count := (l2.pending_count + 1) % 256,
            status := .WithdrawalPending }, s, ?_⟩
        simp only [LpLock.announce_withdrawal, hf]
    split
    · exact ⟨_, rfl, hfree _ rfl⟩
    · exact ⟨_, rfl, hfree _ rfl⟩

-- =============================================================================
-- Concrete reachable lock states for witnesses and counterexamples
-- =============================================================================

/-- A fresh lock holding 1000000 LP tokens with one announced withdrawal
(100000 tokens to recipient 9, announced at t = 1000 during phase 1, so
`execute_after = 1000 + 43200`). -/
def lockOne : LpLock :=
  applyLpOp (LpLock.mkInitial 0 0 1000000)
    (.announce 1000 100000 9 (List.replicate 64 0))

/-- `lockOne` after two further announcements: all three pending slots are
active. -/
def lockFull : LpLock :=
  applyLpOp (applyLpOp lockOne (.announce 2000 20000 2 (List.replicate 64 0)))
    (.announce 3000 30000 3 (List.replicate 64 0))

/-- Witness for C2: `lockOne`'s request is executable at t = 50000
(past its `execute_after` of 44200). -/
theorem execute_withdrawal_timelock_witness :
    ∃ l2, lockOne.execute_withdrawal 50000 0 =
      .ok (l2, (lockOne.pending_withdrawals 0).amount,
        (lockOne.pending_withdrawals 0).recipient) :=
  (execute_withdrawal_timelock lockOne 50000 0 (by norm_num) (by decide)).2
    (by decide)

/-- Witness for C4: a 4th announcement against `lockFull` is rejected with
`TooManyPendingWithdrawals`, and after cancelling slot 1 a new announcement
succeeds. -/
theorem announce_slot_capacity_witness :
    lockFull.announce_withdrawal 4000 40000 4 (List.replicate 64 0) 9
      = .error .TooManyPendingWithdrawals ∧
    (∃ l2, lockFull.cancel_withdrawal 1 = .ok l2 ∧
      ∃ l3 s, l2.announce_withdrawal 5000 41000 5 (List.replicate 64 0) 10
        = .ok (l3, s)) :=
  ⟨(announce_slot_capacity lockFull 4000 5000 40000 4 41000 5
      (List.replicate 64 0) (List.replicate 64 0) 9 10 1 (by decide)).1,
   (announce_slot_capacity lockFull 4000 5000 40000 4 41000 5
      (List.replicate 64 0) (List.replicate 64 0) 9 10 1 (by decide)).2
     (by norm_num)⟩

/-- C9 (amended): announcing more than the locked balance fails with
`InsufficientLpTokens` and commits nothing — no pending request is created
and the snapshot ring is untouched. -/
theorem announce_amount_guard (l : LpLock) (now : Int) (amount recipient : Nat)
    (reason : List Nat) (hgt : l.lp_tokens_locked < amount) :
    announce_withdrawal_handler l now amount recipient reason
      = .error .InsufficientLpTokens ∧
    applyLpOp l (.announce now amount recipient reason) = l := by
  have h1 : announce_withdrawal_handler l now amount recipient reason
      = .error .InsufficientLpTokens := by
    simp only [announce_withdrawal_handler, if_pos hgt]
  exact ⟨h1, by simp only [applyLpOp, h1, commitExcept]⟩

/-- Witness for the amended C9: over-balance announcement rejected on a
fresh lock. -/
theorem announce_amount_guard_witness :
    announce_withdrawal_handler (LpLock.mkInitial 0 0 1000000) 3600 2000000 9
      (List.replicate 64 0) = .error .InsufficientLpTokens ∧
    applyLpOp (LpLock.mkInitial 0 0 1000000)
      (.announce 3600 2000000 9 (List.replicate 64 0))
      = LpLock.mkInitial 0 0 1000000 :=
  announce_amount_guard (LpLock.mkInitial 0 0 1000000) 3600 2000000 9
    (List.replicate 64 0) (by norm_num [LpLock.mkInitial])

/-- C9 counterexample: a zero-amount announcement is not rejected with an
invalid-amount error — it succeeds and creates an active pending request for
zero tokens. -/
theorem announce_zero_amount_cex :
    isOkE (announce_withdrawal_handler (LpLock.mkInitial 0 0 1000000) 3600 0 9
      (List.replicate 64 0)) = true ∧
    ((applyLpOp (LpLock.mkInitial 0 0 1000000)
        (.announce 3600 0 9 (List.replicate 64 0))).pending_withdrawals 0).is_active
      = true ∧
    ((applyLpOp (LpLock.mkInitial 0 0 1000000)
        (.announce 3600 0 9 (List.replicate 64 0))).pending_withdrawals 0).amount
      = 0 := by
  decide

/-- C10: the cancel handler reads the pending slot before validating the
index, so slot 3 aborts with an out-of-bounds panic instead of the typed
`InvalidWithdrawalSlot`; an in-range inactive slot still gets the typed
`NoActiveWithdrawal` error. -/
theorem cancel_handler_oob_panics :
    cancel_withdrawal_handler (LpLock.mkInitial 0 0 1000000) 3 = .panicked ∧
    cancel_withdrawal_handler (LpLock.mkInitial 0 0 1000000) 0
      = .err .NoActiveWithdrawal := by
  decide

-- =============================================================================
-- Shape of each successful operation
-- =============================================================================

/-- A successful state-level announce writes exactly the returned slot, which
was free, bumps the count and sets the pending status. -/
theorem announce_withdrawal_ok (l : LpLock) (now : Int) (amount recipient : Nat)
    (reason : List Nat) (sid : Nat) (l2 : LpLock) (slot : Fin 3)
    (h : l.announce_withdrawal now amount recipient reason sid = .ok (l2, slot)) :
    (l.pending_withdrawals slot).is_active = false ∧
    l2 = { l with
      pending_withdrawals := Function.update l.pending_withdrawals slot
        ⟨amount, recipient, now, now + l.get_required_timelock now, reason,
         sid, true⟩,
      pending_count := (l.pending_count + 1) % 256,
      status := .WithdrawalPending } := by
  unfold LpLock.announce_withdrawal at h
  cases hf : l.firstFreeSlot with
  | none => rw [hf] at h; cases h
  | some s =>
    rw [hf] at h
    injection h with h
    injection h with h1 h2
    subst h2
    exact ⟨firstFreeSlot_some l s hf, h1.symm⟩

/-- A successful state-level execute clears exactly the executed slot, which
was active, decrements the count and updates the status per the remaining
count and balance. -/
theorem execute_withdrawal_ok (l : LpLock) (now : Int) (slot : Nat)
    (l2 : LpLock) (a r : Nat)
    (h : l.execute_withdrawal now slot = .ok (l2, a, r)) :
    ∃ h3 : slot < 3,
      (l.pending_withdrawals ⟨slot, h3⟩).is_active = true ∧
      l2.pending_withdrawals
        = Function.update l.pending_withdrawals ⟨slot, h3⟩ PendingWithdrawal.empty ∧
      l2.pending_count = l.pending_count - 1 ∧
      l2.status = (if l.pending_count - 1 = 0 then
        (if l.lp_tokens_locked - (l.pending_withdrawals ⟨slot, h3⟩).amount = 0
         then LpLockStatus.Withdrawn else .Active)
        else l.status) := by
  by_cases h3 : slot < 3
  · by_cases hact : (l.pending_withdrawals ⟨slot, h3⟩).is_active = false
    · simp only [LpLock.execute_withdrawal, dif_pos h3, if_pos hact] at h
      cases h
    · by_cases hcan : l.can_execute_withdrawal now slot = false
      · simp only [LpLock.execute_withdrawal, dif_pos h3, if_neg hact,
          if_pos hcan] at h
        cases h
      · simp only [LpLock.execute_withdrawal, dif_pos h3, if_neg hact,
          if_neg hcan] at h
        refine ⟨h3, by simpa using hact, ?_⟩
        by_cases hz : l.pending_count - 1 = 0
        · rw [if_pos hz] at h
          injection h with h
          injection h with hl hpr
          subst hl
          refine ⟨rfl, rfl, ?_⟩
          rw [if_pos hz]
        · rw [if_neg hz] at h
          injection h with h
          injection h with hl hpr
          subst hl
          refine ⟨rfl, rfl, ?_⟩
          rw [if_neg hz]
  · simp only [LpLock.execute_withdrawal, dif_neg h3] at h
    cases h

/-- A successful state-level cancel clears exactly the cancelled slot, which
was active, decrements the count and resets the status when no request
remains. -/
theorem cancel_withdrawal_ok (l : LpLock) (slot : Nat) (l2 : LpLock)
    (h : l.cancel_withdrawal slot = .ok l2) :
    ∃ h3 : slot < 3,
      (l.pending_withdrawals ⟨slot, h3⟩).is_active = true ∧
      l2.pending_withdrawals
        = Function.update l.pending_withdrawals ⟨slot, h3⟩ PendingWithdrawal.empty ∧
      l2.pending_count = l.pending_count - 1 ∧
      l2.status
        = (if l.pending_count - 1 = 0 then LpLockStatus.Active else l.status) := by
  by_cases h3 : slot < 3
  · by_cases hact : (l.pending_withdrawals ⟨slot, h3⟩).is_active = false
    · simp only [LpLock.cancel_withdrawal, dif_pos h3, if_pos hact] at h
      cases h
    · simp only [LpLock.cancel_withdrawal, dif_pos h3, if_neg hact] at h
      refine ⟨h3, by simpa using hact, ?_⟩
      by_cases hz : l.pending_count - 1 = 0
      · rw [if_pos hz] at h
        injection h with h
        subst h
        exact ⟨rfl, rfl, by rw [if_pos hz]⟩
      · rw [if_neg hz] at h
        injection h with h
        subst h
        exact ⟨rfl, rfl, by rw [if_neg hz]⟩
  · simp only [LpLock.cancel_withdrawal, dif_neg h3] at h
    cases h

/-- A successful announce instruction: some free slot received the request;
the count, the status and the automatic snapshot id are as the state-level
method wrote them (the snapshot state differs from the input lock only in
the snapshot fields). -/
theorem announce_handler_ok (l : LpLock) (now : Int) (amount recipient : Nat)
    (reason : List Nat) (l2 : LpLock)
    (h : announce_withdrawal_handler l now amount recipient reason = .ok l2) :
    ∃ slot : Fin 3,
      (l.pending_withdrawals slot).is_active = false ∧
      l2.pending_withdrawals = Function.update l.pending_withdrawals slot
        ⟨amount, recipient, now, now + l.get_required_timelock now, reason,
         (l.snapshot_counter + 1) % U64_MOD, true⟩ ∧
      l2.pending_count = (l.pending_count + 1) % 256 ∧
      l2.status = .WithdrawalPending := by
  unfold announce_withdrawal_handler at h
  by_cases hamt : l.lp_tokens_locked < amount
  · rw [if_pos hamt] at h; cases h
  · rw [if_neg hamt] at h
    simp only at h
    cases hres : (l.take_snapshot now preWithdrawalReason 0 0 0 0).1.announce_withdrawal
        now amount recipient reason
        (l.take_snapshot now preWithdrawalReason 0 0 0 0).2 with
    | error e => rw [hres] at h; cases h
    | ok pr =>
      rw [hres] at h
      obtain ⟨l3, slot⟩ := pr
      simp only at h
      injection h with h
      subst h
      obtain ⟨hfree, heq⟩ := announce_withdrawal_ok _ now amount recipient reason
        _ l3 slot hres
      subst heq
      exact ⟨slot, hfree, rfl, rfl, rfl⟩

/-- A successful execute instruction is a successful state-level execute. -/
theorem execute_handler_ok (l : LpLock) (now : Int) (slot : Nat) (l2 : LpLock)
    (h : execute_withdrawal_handler l now slot = .ok l2) :
    ∃ a r, l.execute_withdrawal now slot = .ok (l2, a, r) := by
  unfold execute_withdrawal_handler at h
  by_cases hcan : l.can_execute_withdrawal now slot = false
  · rw [if_pos hcan] at h; cases h
  · rw [if_neg hcan] at h
    cases hres : l.execute_withdrawal now slot with
    | error e => rw [hres] at h; cases h
    | ok pr =>
      rw [hres] at h
      obtain ⟨l3, a, r⟩ := pr
      simp only at h
      injection h with h
      subst h
      exact ⟨a, r, rfl⟩

/-- A successful cancel instruction is a successful state-level cancel. -/
theorem cancel_handler_ok (l : LpLock) (slot : Nat) (l2 : LpLock)
    (h : cancel_withdrawal_handler l slot = .ok l2) :
    l.cancel_withdrawal slot = .ok l2 := by
  unfold cancel_withdrawal_handler at h
  by_cases h3 : slot < 3
  · rw [if_pos h3] at h
    cases hres : l.cancel_withdrawal slot with
    | error e => rw [hres] at h; cases h
    | ok l3 =>
      rw [hres] at h
      injection h with h
      subst h
      rfl
  · rw [if_neg h3] at h; cases h

/-- A successful restore instruction leaves every pending slot and the count
unchanged and sets the `Restored` status. -/
theorem restore_handler_ok (l : LpLock) (now : Int) (sid amt : Nat) (l2 : LpLock)
    (h : restore_from_snapshot_handler l now sid amt = .ok l2) :
    l2.pending_withdrawals = l.pending_withdrawals ∧
    l2.status = .Restored ∧
    l2.pending_count = l.pending_count := by
  unfold restore_from_snapshot_handler at h
  cases hs : l.get_snapshot sid with
  | none => rw [hs] at h; cases h
  | some s =>
    rw [hs] at h
    simp only at h
    by_cases hr : s.was_restored = true
    · rw [if_pos hr] at h; cases h
    · rw [if_neg hr] at h
      injection h with h
      subst h
      exact ⟨rfl, rfl, rfl⟩

-- =============================================================================
-- Stability of announced requests
-- =============================================================================

/-- A pending request that is active before and after a committed operation
is byte-for-byte unchanged: no operation rewrites an occupied slot. -/
theorem pending_slot_stable (l : LpLock) (op : LpOp) (i : Fin 3)
    (hbef : (l.pending_withdrawals i).is_active = true)
    (haft : ((applyLpOp l op).pending_withdrawals i).is_active = true) :
    (applyLpOp l op).pending_withdrawals i = l.pending_withdrawals i := by
  cases op with
  | announce now amount recipient reason =>
    simp only [applyLpOp] at haft ⊢
    cases hres : announce_withdrawal_handler l now amount recipient reason with
    | error e => simp only [commitExcept, hres]
    | ok l2 =>
      simp only [commitExcept, hres]
      obtain ⟨slot, hfree, hpw, -, -⟩ :=
        announce_handler_ok l now amount recipient reason l2 hres
      have hne : i ≠ slot := by
        intro he
        rw [he, hfree] at hbef
        cases hbef
      rw [hpw, Function.update_noteq hne]
  | execute now slot =>
    simp only [applyLpOp] at haft ⊢
    cases hres : execute_withdrawal_handler l now slot with
    | error e => simp only [commitExcept, hres]
    | ok l2 =>
      simp only [commitExcept, hres] at haft ⊢
      obtain ⟨a, r, hex⟩ := execute_handler_ok l now slot l2 hres
      obtain ⟨h3, hact, hpw, -, -⟩ := execute_withdrawal_ok l now slot l2 a r hex
      rw [hpw] at haft ⊢
      by_cases he : i = ⟨slot, h3⟩
      · rw [he, Function.update_same] at haft
        cases haft
      · rw [Function.update_noteq he]
  | cancel slot =>
    simp only [applyLpOp] at haft ⊢
    cases hres : cancel_withdrawal_handler l slot with
    | err e => simp only [hres]
    | panicked => simp only [hres]
    | ok l2 =>
      simp only [hres] at haft ⊢
      obtain ⟨h3, hact, hpw, -, -⟩ :=
        cancel_withdrawal_ok l slot l2 (cancel_handler_ok l slot l2 hres)
      rw [hpw] at haft ⊢
      by_cases he : i = ⟨slot, h3⟩
      · rw [he, Function.update_same] at haft
        cases haft
      · rw [Function.update_noteq he]
  | snapshot now reason a b c d => rfl
  | restore now sid amt =>
    simp only [applyLpOp] at haft ⊢
    cases hres : restore_from_snapshot_handler l now sid amt with
    | error e => simp only [commitExcept, hres]
    | ok l2 =>
      simp only [commitExcept, hres]
      rw [(restore_handler_ok l now sid amt l2 hres).1]

/-- C3: the custody lock's required notice is a pure function of its age
(12 h under 3 days, 15 days under 15 days, 30 days after); an announcement
records `execute_after = now + notice` at announcement time; and no later
committed operation (including phase transitions driven by the advancing
clock) changes the `execute_after` of a request that stays active. -/
theorem lp_phase_notice (l : LpLock) (now : Int) (amount recipient : Nat)
    (reason : List Nat) (sid : Nat) :
    (l.get_required_timelock now =
      if now - l.created_at < 3 * 24 * 60 * 60 then 12 * 60 * 60
      else if now - l.created_at < 15 * 24 * 60 * 60 then 15 * 24 * 60 * 60
      else 30 * 24 * 60 * 60) ∧
    (∀ l2 slot,
      l.announce_withdrawal now amount recipient reason sid = .ok (l2, slot) →
      (l2.pending_withdrawals slot).execute_after
          = now + l.get_required_timelock now ∧
      (l2.pending_withdrawals slot).announced_at = now) ∧
    (∀ (op : LpOp) (i : Fin 3),
      (l.pending_withdrawals i).is_active = true →
      ((applyLpOp l op).pending_withdrawals i).is_active = true →
      ((applyLpOp l op).pending_withdrawals i).execute_after
          = (l.pending_withdrawals i).execute_after) := by
  refine ⟨?_, ?_, ?_⟩
  · unfold LpLock.get_required_timelock LpLock.get_current_phase
    simp only [PHASE1_DURATION_SECONDS, PHASE2_DURATION_SECONDS,
      PHASE1_TIMELOCK_SECONDS, PHASE2_TIMELOCK_SECONDS, PHASE3_TIMELOCK_SECONDS]
    split_ifs <;> rfl
  · intro l2 slot h
    obtain ⟨-, heq⟩ := announce_withdrawal_ok l now amount recipient reason sid
      l2 slot h
    subst heq
    constructor
    · show (Function.update l.pending_withdrawals slot _ slot).execute_after = _
      rw [Function.update_same]
    · show (Function.update l.pending_withdrawals slot _ slot).announced_at = _
      rw [Function.update_same]
  · intro op i hb ha
    rw [pending_slot_stable l op i hb ha]

/-- Witness for C3: the notice formula at a concrete age, a concrete
announcement's recorded `execute_after`, and stability of `lockOne`'s
request across a later snapshot operation. -/
theorem lp_phase_notice_witness :
    ((LpLock.mkInitial 0 0 1000000).get_required_timelock 1000 =
      if (1000 : Int) - 0 < 3 * 24 * 60 * 60 then 12 * 60 * 60
      else if (1000 : Int) - 0 < 15 * 24 * 60 * 60 then 15 * 24 * 60 * 60
      else 30 * 24 * 60 * 60) ∧
    ((applyLpOp lockOne
        (.snapshot 2000000 (List.replicate 32 0) 1 2 3 4)).pending_withdrawals
          0).execute_after
      = (lockOne.pending_withdrawals 0).execute_after :=
  ⟨(lp_phase_notice (LpLock.mkInitial 0 0 1000000) 1000 5 6
      (List.replicate 64 0) 1).1,
   (lp_phase_notice lockOne 2000000 5 6 (List.replicate 64 0) 1).2.2
     (.snapshot 2000000 (List.replicate 32 0) 1 2 3 4) 0 (by decide) (by decide)⟩

-- =============================================================================
-- Status / count correspondence (C5)
-- =============================================================================

/-- Number of active pending slots. -/
def activeCount (p : Fin 3 → PendingWithdrawal) : Nat :=
  (if (p 0).is_active then 1 else 0) + (if (p 1).is_active then 1 else 0) +
    (if (p 2).is_active then 1 else 0)

/-- Existence over `Fin 3` as a three-way disjunction. -/
theorem fin3_exists_iff {P : Fin 3 → Prop} : (∃ i, P i) ↔ P 0 ∨ P 1 ∨ P 2 := by
  constructor
  · rintro ⟨i, hi⟩
    match i with
    | ⟨0, _⟩ => exact .inl hi
    | ⟨1, _⟩ => exact .inr (.inl hi)
    | ⟨2, _⟩ => exact .inr (.inr hi)
  · rintro (h | h | h)
    exacts [⟨0, h⟩, ⟨1, h⟩, ⟨2, h⟩]

/-- The active count is positive exactly when some slot is active. -/
theorem activeCount_pos_iff (p : Fin 3 → PendingWithdrawal) :
    0 < activeCount p ↔ ∃ i, (p i).is_active = true := by
  rw [fin3_exists_iff]
  unfold activeCount
  split_ifs <;> simp_all

/-- At most three slots can be active. -/
theorem activeCount_le_three (p : Fin 3 → PendingWithdrawal) :
    activeCount p ≤ 3 := by
  unfold activeCount
  split_ifs <;> omega

/-- Effect of one slot write on the active count. -/
theorem activeCount_update (p : Fin 3 → PendingWithdrawal) (s : Fin 3)
    (pw : PendingWithdrawal) :
    activeCount (Function.update p s pw) + (if (p s).is_active then 1 else 0)
      = activeCount p + (if pw.is_active then 1 else 0) := by
  unfold activeCount
  rw [Function.update_apply, Function.update_apply, Function.update_apply]
  rcases s with ⟨sv, hs⟩
  interval_cases sv
  · rw [show (⟨0, hs⟩ : Fin 3) = 0 from rfl, if_pos rfl,
      if_neg (show ¬ (1 : Fin 3) = 0 by decide),
      if_neg (show ¬ (2 : Fin 3) = 0 by decide)]
    split_ifs <;> omega
  · rw [show (⟨1, hs⟩ : Fin 3) = 1 from rfl, if_pos rfl,
      if_neg (show ¬ (0 : Fin 3) = 1 by decide),
      if_neg (show ¬ (2 : Fin 3) = 1 by decide)]
    split_ifs <;> omega
  · rw [show (⟨2, hs⟩ : Fin 3) = 2 from rfl, if_pos rfl,
      if_neg (show ¬ (0 : Fin 3) = 2 by decide),
      if_neg (show ¬ (1 : Fin 3) = 2 by decide)]
    split_ifs <;> omega

/-- Writing an active request into a free slot adds one active slot. -/
theorem activeCount_update_activate (p : Fin 3 → PendingWithdrawal) (s : Fin 3)
    (pw : PendingWithdrawal) (hfree : (p s).is_active = false)
    (hpw : pw.is_active = true) :
    activeCount (Function.update p s pw) = activeCount p + 1 := by
  have h := activeCount_update p s pw
  rw [hfree, hpw] at h
  simpa using h

/-- Clearing an active slot removes one active slot. -/
theorem activeCount_update_deactivate (p : Fin 3 → PendingWithdrawal) (s : Fin 3)
    (pw : PendingWithdrawal) (hact : (p s).is_active = true)
    (hpw : pw.is_active = false) :
    activeCount (Function.update p s pw) + 1 = activeCount p := by
  have h := activeCount_update p s pw
  rw [hact, hpw] at h
  simpa using h

/-- The status field reflects whether any pending slot is active. -/
def LpLock.statusInv (l : LpLock) : Prop :=
  l.status = .WithdrawalPending ↔
    ∃ i : Fin 3, (l.pending_withdrawals i).is_active = true

instance (l : LpLock) : Decidable l.statusInv := by
  unfold LpLock.statusInv
  infer_instance

/-- The `u8` pending counter equals the number of active slots. -/
def LpLock.countInv (l : LpLock) : Prop :=
  l.pending_count = activeCount l.pending_withdrawals

instance (l : LpLock) : Decidable l.countInv := by
  unfold LpLock.countInv
  infer_instance

/-- C5 counterexample: `lockOne` (a reachable state: fresh lock, one
announced withdrawal) satisfies the status correspondence, but
`restore_from_snapshot` sets the status to `Restored` while the pending
slot stays active, breaking it. -/
theorem lp_status_restore_cex :
    lockOne.statusInv ∧
    (applyLpOp lockOne (.restore 90000 1 100000)).status = .Restored ∧
    ((applyLpOp lockOne (.restore 90000 1 100000)).pending_withdrawals
      0).is_active = true ∧
    ¬ (applyLpOp lockOne (.restore 90000 1 100000)).statusInv := by
  decide

/-- C5 (amended): in every state where the status correspondence and the
count correspondence hold, `announce`, `execute`, `cancel` and
`take_snapshot` preserve both; `restore_from_snapshot` is the one exception
and is excluded. -/
theorem lp_status_inv_preserved (l : LpLock) (op : LpOp)
    (hnr : ∀ now sid amt, op ≠ .restore now sid amt)
    (hs : l.statusInv) (hc : l.countInv) :
    (applyLpOp l op).statusInv ∧ (applyLpOp l op).countInv := by
  cases op with
  | announce now amount recipient reason =>
    simp only [applyLpOp]
    cases hres : announce_withdrawal_handler l now amount recipient reason with
    | error e => exact ⟨hs, hc⟩
    | ok l2 =>
      simp only [commitExcept]
      obtain ⟨slot, hfree, hpw, hcount, hstat⟩ :=
        announce_handler_ok l now amount recipient reason l2 hres
      have hact2 : ∃ i, (l2.pending_withdrawals i).is_active = true :=
        ⟨slot, by rw [hpw, Function.update_same]⟩
      have h1 : activeCount l2.pending_withdrawals
          = activeCount l.pending_withdrawals + 1 := by
        rw [hpw]
        exact activeCount_update_activate _ _ _ hfree rfl
      refine ⟨⟨fun _ => hact2, fun _ => hstat⟩, ?_⟩
      have hle := activeCount_le_three l.pending_withdrawals
      unfold LpLock.countInv at hc ⊢
      omega
  | execute now slot =>
    simp only [applyLpOp]
    cases hres : execute_withdrawal_handler l now slot with
    | error e => exact ⟨hs, hc⟩
    | ok l2 =>
      simp only [commitExcept]
      obtain ⟨a, r, hex⟩ := execute_handler_ok l now slot l2 hres
      obtain ⟨h3, hact, hpw, hcount, hstat⟩ :=
        execute_withdrawal_ok l now slot l2 a r hex
      have hpos : 0 < activeCount l.pending_withdrawals :=
        (activeCount_pos_iff _).mpr ⟨_, hact⟩
      have h1 : activeCount l2.pending_withdrawals + 1
          = activeCount l.pending_withdrawals := by
        rw [hpw]
        exact activeCount_update_deactivate _ _ _ hact rfl
      have hwp : l.status = .WithdrawalPending := hs.mpr ⟨_, hact⟩
      unfold LpLock.countInv at hc
      constructor
      · by_cases hz : l.pending_count - 1 = 0
        · constructor
          · intro hl
            rw [hstat, if_pos hz] at hl
            split_ifs at hl
          · intro hex2
            have := (activeCount_pos_iff l2.pending_withdrawals).mpr hex2
            omega
        · refine ⟨fun _ => ?_, fun _ => ?_⟩
          · exact (activeCount_pos_iff l2.pending_withdrawals).mp (by omega)
          · rw [hstat, if_neg hz]
            exact hwp
      · unfold LpLock.countInv
        omega
  | cancel slot =>
    simp only [applyLpOp]
    cases hres : cancel_withdrawal_handler l slot with
    | err e => exact ⟨hs, hc⟩
    | panicked => exact ⟨hs, hc⟩
    | ok l2 =>
      simp only
      obtain ⟨h3, hact, hpw, hcount, hstat⟩ :=
        cancel_withdrawal_ok l slot l2 (cancel_handler_ok l slot l2 hres)
      have hpos : 0 < activeCount l.pending_withdrawals :=
        (activeCount_pos_iff _).mpr ⟨_, hact⟩
      have h1 : activeCount l2.pending_withdrawals + 1
          = activeCount l.pending_withdrawals := by
        rw [hpw]
        exact activeCount_update_deactivate _ _ _ hact rfl
      have hwp : l.status = .WithdrawalPending := hs.mpr ⟨_, hact⟩
      unfold LpLock.countInv at hc
      constructor
      · by_cases hz : l.pending_count - 1 = 0
        · constructor
          · intro hl
            rw [hstat, if_pos hz] at hl
            cases hl
          · intro hex2
            have := (activeCount_pos_iff l2.pending_withdrawals).mpr hex2
            omega
        · refine ⟨fun _ => ?_, fun _ => ?_⟩
          · exact (activeCount_pos_iff l2.pending_withdrawals).mp (by omega)
          · rw [hstat, if_neg hz]
            exact hwp
      · unfold LpLock.countInv
        omega
  | snapshot now reason a b c d => exact ⟨hs, hc⟩
  | restore now sid amt => exact absurd rfl (hnr now sid amt)

/-- Witness for the amended C5: cancelling `lockOne`'s request preserves both
correspondences. -/
theorem lp_status_inv_preserved_witness :
    (applyLpOp lockOne (.cancel 0)).statusInv ∧
    (applyLpOp lockOne (.cancel 0)).countInv :=
  lp_status_inv_preserved lockOne (.cancel 0)
    (fun _ _ _ h => LpOp.noConfusion h) (by decide) (by decide)

-- =============================================================================
-- Atomicity of rejections (C6)
-- =============================================================================

/-- C6: a rejected operation commits nothing.  Three instances: a
`request_dev_unlock` rejected with `UnlockRateExceeded` commits the input
vault (in particular `unlock_rate_bps` is unchanged), a rejected
`propose_dao_withdrawal` commits the input treasury (`period_start` and
`spent_this_period` unchanged), and an `announce_lp_withdrawal` rejected
with `TooManyPendingWithdrawals` commits the input lock (snapshot ring and
`snapshot_counter` unchanged).  Solana reverts every failed instruction, so
the mutation a handler performed before erroring is never persisted. -/
theorem error_rejection_atomic (v : DevVestingVault) (t : DaoTreasuryVault)
    (l : LpLock) (now : Int) (amtV amtT amtL recT recL : Nat)
    (rsT rsL : List Nat) :
    (MIN_TRANSFER_AMOUNT ≤ amtV → v.cliff_passed now = true →
      v.cooldown_passed now = true →
      (v.update_unlock_rate now).max_unlockable < amtV →
      request_unlock_handler v now amtV = .error .UnlockRateExceeded ∧
      commitExcept v (request_unlock_handler v now amtV) = v) ∧
    (MIN_TRANSFER_AMOUNT ≤ amtT → (t.resetIfElapsed now).max_spendable < amtT →
      propose_handler t now amtT recT rsT = .error .DaoSpendingLimitExceeded ∧
      commitExcept t (propose_handler t now amtT recT rsT) = t) ∧
    (amtL ≤ l.lp_tokens_locked →
      (∀ i : Fin 3, (l.pending_withdrawals i).is_active = true) →
      announce_withdrawal_handler l now amtL recL rsL
          = .error .TooManyPendingWithdrawals ∧
      applyLpOp l (.announce now amtL recL rsL) = l) := by
  refine ⟨?_, ?_, ?_⟩
  · intro hmin hcliff hcool hrate
    have h1 : request_unlock_handler v now amtV = .error .UnlockRateExceeded := by
      simp only [request_unlock_handler, hcliff, hcool]
      rw [if_neg (by omega), if_neg (by simp), if_neg (by simp), if_pos hrate]
    exact ⟨h1, by rw [h1]; rfl⟩
  · intro hmin hcap
    have h1 : propose_handler t now amtT recT rsT
        = .error .DaoSpendingLimitExceeded := by
      simp only [propose_handler,
        if_neg (show ¬ amtT < MIN_TRANSFER_AMOUNT by omega)]
      rw [if_pos hcap]
    exact ⟨h1, by rw [h1]; rfl⟩
  · intro hamt hall
    have hnone :
        ((l.take_snapshot now preWithdrawalReason 0 0 0 0).1).firstFreeSlot
          = none :=
      (firstFreeSlot_eq_none_iff _).mpr hall
    have h1 : announce_withdrawal_handler l now amtL recL rsL
        = .error .TooManyPendingWithdrawals := by
      simp only [announce_withdrawal_handler,
        if_neg (show ¬ l.lp_tokens_locked < amtL by omega)]
      simp only [LpLock.announce_withdrawal, hnone]
    exact ⟨h1, by simp only [applyLpOp, h1, commitExcept]⟩

/-- Witness for C6 at three concrete rejected operations. -/
theorem error_rejection_atomic_witness :
    (request_unlock_handler sampleVault 200 60000 = .error .UnlockRateExceeded ∧
      commitExcept sampleVault (request_unlock_handler sampleVault 200 60000)
        = sampleVault) ∧
    (propose_handler sampleTreasury 5 150000 7 []
        = .error .DaoSpendingLimitExceeded ∧
      commitExcept sampleTreasury (propose_handler sampleTreasury 5 150000 7 [])
        = sampleTreasury) ∧
    (announce_withdrawal_handler lockFull 4000 40000 4 (List.replicate 64 0)
        = .error .TooManyPendingWithdrawals ∧
      applyLpOp lockFull (.announce 4000 40000 4 (List.replicate 64 0))
        = lockFull) :=
  ⟨(error_rejection_atomic sampleVault sampleTreasury lockFull 200 60000 0 0 0 0
      [] []).1 (by decide) (by decide) (by decide) (by decide),
   (error_rejection_atomic sampleVault sampleTreasury lockFull 5 0 150000 0 7 0
      [] []).2.1 (by decide) (by decide),
   (error_rejection_atomic sampleVault sampleTreasury lockFull 4000 0 0 40000 0
      4 [] (List.replicate 64 0)).2.2 (by decide) (by decide)⟩

end Paradox
